import Mathlib

/-
  Verification of the memoizedsingleton dependency-injection library.

  The embedding models the registry code of
  src/application-context/application_context.ts, the component base of
  src/building-blocks/component.ts and the construction-intercepting
  decorators of src/scopes/scopes.ts.  JavaScript `Map` objects are
  modelled as association lists with unique keys (a `Map` never holds two
  entries with the same key, so removing every matching key coincides with
  `Map.delete`).  Object identity is modelled by a numeric instance id
  drawn from a counter in the global state; construction of a payload is
  logged in `payloadRuns` so that "the payload did not re-run" is the
  statement that this log is unchanged.  Thrown errors are `Except.error`
  carrying the message; every mutating operation returns the state as it
  is when the operation finishes or throws (the code mutates in place, so
  a throw does not roll anything back).
-/

set_option autoImplicit false

namespace MemoizedSingleton

/-- Scope taxonomy from component.ts (enum Scope). -/
inductive Scope where
  | SINGLETON
  | PROTOTYPE
  | REQUEST
deriving DecidableEq, Repr

/-- String form of a scope tag, as interpolated into error messages. -/
def Scope.toStr : Scope → String
  | .SINGLETON => "SINGLETON"
  | .PROTOTYPE => "PROTOTYPE"
  | .REQUEST => "REQUEST"

/-- A component class (a decorated constructor).  `key` models constructor
identity (JS `Map` keys classes by object identity), `name` is the class
name used in error messages, and `scope` is what
`className.prototype.getScope()` returns: the scope constant of the
component base class the decorated class extends. -/
structure Cls where
  key : Nat
  name : String
  scope : Scope
deriving DecidableEq, Repr

/-- A component instance.  `id` models JS object identity (two instances
are the same object exactly when their ids are equal, since ids are drawn
from a strictly increasing counter), `scope` is what `getScope()` returns
(set by the component base constructor), and `args` records the
constructor arguments the payload was built from. -/
structure Instance where
  id : Nat
  scope : Scope
  args : List Nat
deriving DecidableEq, Repr

/-- Lookup in an association list, the model of `Map.get`. -/
def aget {α β : Type} [DecidableEq α] : List (α × β) → α → Option β
  | [], _ => none
  | (k, v) :: rest, a => if k = a then some v else aget rest a

/-- Insert-or-overwrite in an association list, the model of `Map.set`. -/
def aset {α β : Type} [DecidableEq α] : List (α × β) → α → β → List (α × β)
  | [], a, b => [(a, b)]
  | (k, v) :: rest, a, b => if k = a then (k, b) :: rest else (k, v) :: aset rest a b

/-- Deletion from an association list, the model of `Map.delete`.  All
reachable maps have unique keys (`aset` overwrites in place), so removing
every entry with the key equals removing the single entry the `Map`
holds. -/
def adel {α β : Type} [DecidableEq α] : List (α × β) → α → List (α × β)
  | [], _ => []
  | (k, v) :: rest, a => if k = a then adel rest a else (k, v) :: adel rest a

theorem aget_aset_self {α β : Type} [DecidableEq α] (m : List (α × β)) (a : α) (b : β) :
    aget (aset m a b) a = some b := by
  induction m with
  | nil => simp [aget, aset]
  | cons p rest ih =>
    by_cases h : p.1 = a
    · simp [aget, aset, h]
    · simp [aget, aset, h, ih]

theorem aget_aset_ne {α β : Type} [DecidableEq α] (m : List (α × β)) (a b' : α) (b : β)
    (h : b' ≠ a) : aget (aset m a b) b' = aget m b' := by
  have h2 : a ≠ b' := Ne.symm h
  induction m with
  | nil => simp [aget, aset, h2]
  | cons p rest ih =>
    by_cases hk : p.1 = a
    · have hk2 : p.1 ≠ b' := by
        intro hh
        exact h (hh ▸ hk)
      simp [aget, aset, hk, hk2, h, h2]
    · by_cases hk2 : p.1 = b'
      · simp [aget, aset, hk, hk2, h, h2]
      · simp [aget, aset, hk, hk2, ih]

theorem aget_adel_self {α β : Type} [DecidableEq α] (m : List (α × β)) (a : α) :
    aget (adel m a) a = none := by
  induction m with
  | nil => simp [aget, adel]
  | cons p rest ih =>
    by_cases h : p.1 = a
    · simp [adel, h, ih]
    · simp [aget, adel, h, ih]

theorem aget_adel_ne {α β : Type} [DecidableEq α] (m : List (α × β)) (a b' : α)
    (h : b' ≠ a) : aget (adel m a) b' = aget m b' := by
  have h2 : a ≠ b' := Ne.symm h
  induction m with
  | nil => simp [adel]
  | cons p rest ih =>
    by_cases hk : p.1 = a
    · have hk2 : p.1 ≠ b' := by
        intro hh
        exact h (hh ▸ hk)
      simp [aget, adel, hk, hk2, h, h2, ih]
    · by_cases hk2 : p.1 = b'
      · simp [aget, adel, hk, hk2, h, h2, ih]
      · simp [aget, adel, hk, hk2, ih]

theorem adel_of_aget_none {α β : Type} [DecidableEq α] (m : List (α × β)) (a : α)
    (h : aget m a = none) : adel m a = m := by
  induction m with
  | nil => simp [adel]
  | cons p rest ih =>
    by_cases hk : p.1 = a
    · simp [aget, hk] at h
    · simp [aget, hk] at h
      simp [adel, hk, ih h]

theorem aset_of_aget_some {α β : Type} [DecidableEq α] (m : List (α × β)) (a : α) (b : β)
    (h : aget m a = some b) : aset m a b = m := by
  induction m with
  | nil => simp [aget] at h
  | cons p rest ih =>
    by_cases hk : p.1 = a
    · simp [aget, hk] at h
      cases p with
      | mk k v => simp_all [aset]
    · simp [aget, hk] at h
      simp [aset, hk, ih h]

theorem adel_eq_nil_of_only {α β : Type} [DecidableEq α] (m : List (α × β)) (a : α)
    (h : ∀ x, x ≠ a → aget m x = none) : adel m a = [] := by
  induction m with
  | nil => simp [adel]
  | cons p rest ih =>
    by_cases hk : p.1 = a
    · simp only [adel, hk, if_pos rfl]
      refine ih (fun x hx => ?_)
      have := h x hx
      have hpx : p.1 ≠ x := by
        intro hh
        exact hx (hh ▸ hk)
      simpa [aget, hpx] using this
    · exfalso
      have := h p.1 hk
      simp [aget] at this

/-- A registry store: constructor to qualifier-map to instance, the shape
of `contextSingletonContainer` and of each request-context map. -/
abbrev Store := List (Cls × List (String × Instance))

/-- Registry read for one (type, qualifier). -/
def storeGet (s : Store) (c : Cls) (q : String) : Option Instance :=
  match aget s c with
  | none => none
  | some m => aget m q

/-- Registry write for one (type, qualifier): fetch or create the
qualifier map, then set the entry (setApplicationContext body). -/
def storeSet (s : Store) (c : Cls) (q : String) (i : Instance) : Store :=
  aset s c (aset (match aget s c with | none => [] | some m => m) q i)

/-- Registry removal for one (type, qualifier): delete the entry and, if
the qualifier map is now empty, delete the type key too
(removeComponentFromApplicationContext body). -/
def storeRemove (s : Store) (c : Cls) (q : String) : Store :=
  match aget s c with
  | none => s
  | some m =>
    if adel m q = [] then adel s c else aset s c (adel m q)

theorem storeGet_nil (c : Cls) (q : String) : storeGet [] c q = none := rfl

theorem storeGet_storeSet_self (s : Store) (c : Cls) (q : String) (i : Instance) :
    storeGet (storeSet s c q i) c q = some i := by
  cases h : aget s c <;>
    simp [storeGet, storeSet, h, aget_aset_self]

theorem storeGet_storeRemove_self (s : Store) (c : Cls) (q : String) :
    storeGet (storeRemove s c q) c q = none := by
  cases h : aget s c with
  | none => simp [storeRemove, storeGet, h]
  | some m =>
    by_cases hm : adel m q = []
    · simp [storeRemove, storeGet, h, hm, aget_adel_self]
    · simp [storeRemove, storeGet, h, hm, aget_aset_self, aget_adel_self]

/-- Well-formedness of a store: no empty qualifier map persists under a
type key (INV5 in the spec; holds for every reachable store). -/
def StoreWF (s : Store) : Prop :=
  ∀ c m, aget s c = some m → m ≠ []

theorem storeWF_nil : StoreWF [] := by
  intro c m h
  simp [aget] at h

theorem storeRemove_last (s : Store) (c : Cls) (q : String)
    (h : ∀ x, x ≠ q → storeGet s c x = none) :
    aget (storeRemove s c q) c = none := by
  cases hs : aget s c with
  | none => simp [storeRemove, hs]
  | some m =>
    have hm : ∀ x, x ≠ q → aget m x = none := by
      intro x hx
      have := h x hx
      simpa [storeGet, hs] using this
    have hnil : adel m q = [] := adel_eq_nil_of_only m q hm
    simp [storeRemove, hs, hnil, aget_adel_self]

theorem storeGet_of_aget_none (s : Store) (c : Cls) (q : String)
    (h : aget s c = none) : storeGet s c q = none := by
  simp [storeGet, h]

theorem storeRemove_absent (s : Store) (c : Cls) (q : String)
    (hwf : StoreWF s) (h : storeGet s c q = none) : storeRemove s c q = s := by
  cases hs : aget s c with
  | none => simp [storeRemove, hs]
  | some m =>
    have hm : aget m q = none := by simpa [storeGet, hs] using h
    have hdel : adel m q = m := adel_of_aget_none m q hm
    have hne : m ≠ [] := hwf c m hs
    simp [storeRemove, hs, hdel, hne, aset_of_aget_some s c m hs]

theorem storeRemove_WF (s : Store) (c : Cls) (q : String)
    (hwf : StoreWF s) : StoreWF (storeRemove s c q) := by
  intro c' m' h
  cases hs : aget s c with
  | none =>
    rw [storeRemove, hs] at h
    exact hwf c' m' h
  | some m =>
    by_cases hnil : adel m q = []
    · simp only [storeRemove, hs] at h
      rw [if_pos hnil] at h
      by_cases hc : c' = c
      · rw [hc, aget_adel_self] at h
        exact absurd h (by simp)
      · rw [aget_adel_ne s c c' hc] at h
        exact hwf c' m' h
    · simp only [storeRemove, hs] at h
      rw [if_neg hnil] at h
      by_cases hc : c' = c
      · rw [hc, aget_aset_self] at h
        cases h
        exact hnil
      · rw [aget_aset_ne s c c' _ hc] at h
        exact hwf c' m' h

/-- The reserved default qualifier (DEFAULT_QUALIFIER). -/
def DEFAULT_QUALIFIER : String := "default"

/-- Qualifier normalisation, modelling the JS expression
`qualifier || DEFAULT_QUALIFIER`: an omitted qualifier (undefined) and the
empty string are the only falsy values a string-or-undefined qualifier can
take, and both fall back to the default. -/
def normQ : Option String → String
  | none => DEFAULT_QUALIFIER
  | some s => if s = "" then DEFAULT_QUALIFIER else s

/-- The mutable module-level state of application_context.ts:
`contextSingletonContainer`, the stack of request-context maps held by the
AsyncLocalStorage (head = the store `getStore()` returns; empty list =
no active request context), the object-identity counter, and the log of
payload constructor runs. -/
structure CtxState where
  singletons : Store
  requestStack : List Store
  nextId : Nat
  payloadRuns : List (Cls × List Nat)
deriving DecidableEq, Repr

/-- getApplicationContext: dispatches on `className.prototype.getScope()`;
REQUEST reads the current context map (undefined when none is active),
SINGLETON reads the process-wide map, and any other scope falls into the
default branch which throws `Unsupported scope: ...` (for this taxonomy
the only such scope is PROTOTYPE). -/
def getApplicationContext (st : CtxState) (c : Cls) (q : Option String) :
    Except String (Option Instance) :=
  match c.scope with
  | Scope.REQUEST =>
    match st.requestStack with
    | [] => Except.ok none
    | top :: _ => Except.ok (storeGet top c (normQ q))
  | Scope.SINGLETON => Except.ok (storeGet st.singletons c (normQ q))
  | Scope.PROTOTYPE =>
    Except.error ("Unsupported scope: " ++ Scope.toStr Scope.PROTOTYPE)

/-- setApplicationContext: dispatches on `instance.getScope()`; SINGLETON
writes the process store, REQUEST writes the current context map and
throws when none is active, any other scope throws in the default
branch.  The returned state is the state at the moment of return or
throw (all checks precede the mutation). -/
def setApplicationContext (st : CtxState) (inst : Instance) (c : Cls) (q : Option String) :
    Except String Unit × CtxState :=
  match inst.scope with
  | Scope.SINGLETON =>
    (Except.ok (), { st with singletons := storeSet st.singletons c (normQ q) inst })
  | Scope.REQUEST =>
    match st.requestStack with
    | [] =>
      (Except.error "No active request scope. Make sure to call within withRequestScope().", st)
    | top :: rest =>
      (Except.ok (), { st with requestStack := storeSet top c (normQ q) inst :: rest })
  | Scope.PROTOTYPE =>
    (Except.error ("Unsupported scope: " ++ Scope.toStr Scope.PROTOTYPE), st)

/-- removeComponentFromApplicationContext: dispatches on
`className.prototype.getScope()`.  For REQUEST with no active context it
returns without doing anything (the early `return`); otherwise it deletes
the (type, qualifier) entry and prunes the empty qualifier map; the
default branch throws. -/
def removeComponentFromApplicationContext (st : CtxState) (c : Cls) (q : Option String) :
    Except String Unit × CtxState :=
  match c.scope with
  | Scope.REQUEST =>
    match st.requestStack with
    | [] => (Except.ok (), st)
    | top :: rest =>
      (Except.ok (), { st with requestStack := storeRemove top c (normQ q) :: rest })
  | Scope.SINGLETON =>
    (Except.ok (), { st with singletons := storeRemove st.singletons c (normQ q) })
  | Scope.PROTOTYPE =>
    (Except.error ("Unsupported scope: " ++ Scope.toStr Scope.PROTOTYPE), st)

/-- Component.replace(newInstance, qualifier?): first
removeComponentFromApplicationContext(this.constructor, qualifier), then
setApplicationContext(newInstance, this.constructor, qualifier), then
return newInstance.  A throw in either step propagates with whatever
state the steps left behind. -/
def replace (st : CtxState) (c : Cls) (newInst : Instance) (q : Option String) :
    Except String Instance × CtxState :=
  match removeComponentFromApplicationContext st c q with
  | (Except.error e, st1) => (Except.error e, st1)
  | (Except.ok _, st1) =>
    match setApplicationContext st1 newInst c q with
    | (Except.error e, st2) => (Except.error e, st2)
    | (Except.ok _, st2) => (Except.ok newInst, st2)

/-- The constructor of the class produced by the Singleton decorator
(scopes.ts).  It first asks getApplicationContext for an existing
instance under the decorator qualifier and returns it verbatim on a hit;
on a miss it runs the payload constructor with the supplied arguments
(modelled as a fresh instance id, the argument record, and an entry in
the payload log) and registers the instance via setApplicationContext
under the decorated class and the same qualifier. -/
def constructSingleton (st : CtxState) (c : Cls) (q : Option String) (args : List Nat) :
    Except String Instance × CtxState :=
  match getApplicationContext st c q with
  | Except.error e => (Except.error e, st)
  | Except.ok (some existing) => (Except.ok existing, st)
  | Except.ok none =>
    match setApplicationContext
        { st with nextId := st.nextId + 1, payloadRuns := st.payloadRuns ++ [(c, args)] }
        ⟨st.nextId, Scope.SINGLETON, args⟩ c q with
    | (Except.ok _, st2) => (Except.ok ⟨st.nextId, Scope.SINGLETON, args⟩, st2)
    | (Except.error e, st2) => (Except.error e, st2)

/-- The constructor of the class produced by the Request decorator
(scopes.ts); identical to the Singleton one except that the produced
instance carries the REQUEST scope, so registration targets the current
request-context map. -/
def constructRequest (st : CtxState) (c : Cls) (q : Option String) (args : List Nat) :
    Except String Instance × CtxState :=
  match getApplicationContext st c q with
  | Except.error e => (Except.error e, st)
  | Except.ok (some existing) => (Except.ok existing, st)
  | Except.ok none =>
    match setApplicationContext
        { st with nextId := st.nextId + 1, payloadRuns := st.payloadRuns ++ [(c, args)] }
        ⟨st.nextId, Scope.REQUEST, args⟩ c q with
    | (Except.ok _, st2) => (Except.ok ⟨st.nextId, Scope.REQUEST, args⟩, st2)
    | (Except.error e, st2) => (Except.error e, st2)

/-- initializeRequestContext from application_context.ts (named after the
spec operation runInNewContext): create a fresh empty request map, make
it the current store for the extent of the callback (modelled by pushing
onto the stack of stores held in the AsyncLocalStorage), run the
callback, and restore the previous current store afterwards. -/
def runInNewContext {α : Type} (cb : CtxState → α × CtxState) (st : CtxState) : α × CtxState :=
  match cb { st with requestStack := [] :: st.requestStack } with
  | (a, st2) => (a, { st2 with requestStack := st2.requestStack.tail })

/-- Two request-scoped constructions of the same type and qualifier run
inside one request context, returning both results and both intermediate
states (the scenario of spec property P3). -/
def twiceInContext (c : Cls) (q : Option String) (a1 a2 : List Nat) (st : CtxState) :
    ((Except String Instance × CtxState) × (Except String Instance × CtxState)) × CtxState :=
  match constructRequest st c q a1 with
  | (r1, s1) =>
    match constructRequest s1 c q a2 with
    | (r2, s2) => (((r1, s1), (r2, s2)), s2)

/-- Modelled from the spec: the field dependency resolver (`Insert` in
the building-blocks assembler module, which is absent from the provided
sources; only an earlier revision without the qualifier parameter is
present, while the integration tests and the README use the
three-argument form `Insert(type, optional, qualifier)`).  Per spec
section 4.5 it resolves the declared (dependency type, optional-flag,
qualifier) field eagerly at construction time: look the dependency up in
the store chosen by the dependency type scope under the declared
qualifier; bind the found instance; when absent and required, throw an
error naming the missing type and the consuming field; when absent and
optional, bind the absent value. -/
def Insert (st : CtxState) (depType : Cls) (opt : Bool) (q : Option String)
    (fieldName : String) : Except String (Option Instance) :=
  match getApplicationContext st depType q with
  | Except.error e => Except.error e
  | Except.ok (some i) => Except.ok (some i)
  | Except.ok none =>
    if opt then Except.ok none
    else
      Except.error ("Failed to inject " ++ fieldName ++ ": No instance of " ++ depType.name
        ++ " found in application context. Make sure the dependency is decorated with @Singleton or @Request and has been instantiated.")

theorem get_singleton_eq (st : CtxState) (c : Cls) (q : Option String)
    (hc : c.scope = Scope.SINGLETON) :
    getApplicationContext st c q = Except.ok (storeGet st.singletons c (normQ q)) := by
  simp [getApplicationContext, hc]

theorem get_request_eq (st : CtxState) (c : Cls) (q : Option String) (top : Store)
    (rest : List Store) (hc : c.scope = Scope.REQUEST)
    (hstack : st.requestStack = top :: rest) :
    getApplicationContext st c q = Except.ok (storeGet top c (normQ q)) := by
  simp [getApplicationContext, hc, hstack]

theorem set_singleton_eq (st : CtxState) (inst : Instance) (c : Cls) (q : Option String)
    (hi : inst.scope = Scope.SINGLETON) :
    setApplicationContext st inst c q
      = (Except.ok (), { st with singletons := storeSet st.singletons c (normQ q) inst }) := by
  simp [setApplicationContext, hi]

theorem set_request_eq (st : CtxState) (inst : Instance) (c : Cls) (q : Option String)
    (top : Store) (rest : List Store) (hi : inst.scope = Scope.REQUEST)
    (hstack : st.requestStack = top :: rest) :
    setApplicationContext st inst c q
      = (Except.ok (), { st with requestStack := storeSet top c (normQ q) inst :: rest }) := by
  simp [setApplicationContext, hi, hstack]

theorem remove_singleton_eq (st : CtxState) (c : Cls) (q : Option String)
    (hc : c.scope = Scope.SINGLETON) :
    removeComponentFromApplicationContext st c q
      = (Except.ok (), { st with singletons := storeRemove st.singletons c (normQ q) }) := by
  simp [removeComponentFromApplicationContext, hc]

theorem constructSingleton_hit (st : CtxState) (c : Cls) (q : Option String) (a : List Nat)
    (i : Instance) (hc : c.scope = Scope.SINGLETON)
    (hs : storeGet st.singletons c (normQ q) = some i) :
    constructSingleton st c q a = (Except.ok i, st) := by
  rw [constructSingleton, get_singleton_eq st c q hc, hs]

theorem constructSingleton_miss (st : CtxState) (c : Cls) (q : Option String) (a : List Nat)
    (hc : c.scope = Scope.SINGLETON)
    (hs : storeGet st.singletons c (normQ q) = none) :
    constructSingleton st c q a
      = (Except.ok ⟨st.nextId, Scope.SINGLETON, a⟩,
         { st with nextId := st.nextId + 1,
                   payloadRuns := st.payloadRuns ++ [(c, a)],
                   singletons := storeSet st.singletons c (normQ q)
                     ⟨st.nextId, Scope.SINGLETON, a⟩ }) := by
  rw [constructSingleton, get_singleton_eq st c q hc, hs,
    set_singleton_eq _ _ _ _ rfl]

theorem constructRequest_hit (st : CtxState) (c : Cls) (q : Option String) (a : List Nat)
    (i : Instance) (top : Store) (rest : List Store) (hc : c.scope = Scope.REQUEST)
    (hstack : st.requestStack = top :: rest)
    (hs : storeGet top c (normQ q) = some i) :
    constructRequest st c q a = (Except.ok i, st) := by
  rw [constructRequest, get_request_eq st c q top rest hc hstack, hs]

theorem constructRequest_miss (st : CtxState) (c : Cls) (q : Option String) (a : List Nat)
    (top : Store) (rest : List Store) (hc : c.scope = Scope.REQUEST)
    (hstack : st.requestStack = top :: rest)
    (hs : storeGet top c (normQ q) = none) :
    constructRequest st c q a
      = (Except.ok ⟨st.nextId, Scope.REQUEST, a⟩,
         { st with nextId := st.nextId + 1,
                   payloadRuns := st.payloadRuns ++ [(c, a)],
                   requestStack := storeSet top c (normQ q)
                     ⟨st.nextId, Scope.REQUEST, a⟩ :: rest }) := by
  rw [constructRequest, get_request_eq st c q top rest hc hstack, hs,
    set_request_eq
      { st with nextId := st.nextId + 1, payloadRuns := st.payloadRuns ++ [(c, a)] }
      ⟨st.nextId, Scope.REQUEST, a⟩ c q top rest rfl hstack]

/-- Callback constructing one request-scoped instance, as handed to
runInNewContext. -/
def constructRequestCb (c : Cls) (q : Option String) (a : List Nat) :
    CtxState → Except String Instance × CtxState :=
  fun st => constructRequest st c q a

/-- Sample empty global state. -/
def stEmpty : CtxState := ⟨[], [], 0, []⟩

/-- Sample singleton-scoped class. -/
def clsTestSingleton : Cls := ⟨0, "TestSingleton", Scope.SINGLETON⟩

/-- Sample request-scoped class. -/
def clsDummyRequest : Cls := ⟨1, "DummyRequest", Scope.REQUEST⟩

/-- Sample prototype-scoped class (a class extending PrototypeComponent,
whose prototype getScope returns PROTOTYPE). -/
def clsDummyPrototype : Cls := ⟨2, "DummyPrototype", Scope.PROTOTYPE⟩

/-- Sample singleton-scoped class decorated with a non-default
qualifier. -/
def clsQualified : Cls := ⟨3, "QualifiedTestSingleton", Scope.SINGLETON⟩

/-- Claim C1: for a SINGLETON-decorated type and its qualifier, when the
registry has no entry the first construction call runs the payload with
its arguments and registers the result; and after any successful
construction call, a second construction call returns the identical
instance with the state unchanged — the payload log does not grow and
the second call's arguments leave no trace. -/
theorem c1_singleton_identity (st : CtxState) (c : Cls) (q : Option String)
    (a1 a2 : List Nat) (hc : c.scope = Scope.SINGLETON) :
    (storeGet st.singletons c (normQ q) = none →
      constructSingleton st c q a1
        = (Except.ok ⟨st.nextId, Scope.SINGLETON, a1⟩,
           { st with nextId := st.nextId + 1,
                     payloadRuns := st.payloadRuns ++ [(c, a1)],
                     singletons := storeSet st.singletons c (normQ q)
                       ⟨st.nextId, Scope.SINGLETON, a1⟩ }))
    ∧ (∀ (i : Instance) (st2 : CtxState),
        constructSingleton st c q a1 = (Except.ok i, st2) →
        constructSingleton st2 c q a2 = (Except.ok i, st2)) := by
  constructor
  · intro hs
    exact constructSingleton_miss st c q a1 hc hs
  · intro i st2 h
    cases hs : storeGet st.singletons c (normQ q) with
    | some e =>
      rw [constructSingleton_hit st c q a1 e hc hs] at h
      injection h with h1 h2
      injection h1 with h1
      subst h1
      subst h2
      exact constructSingleton_hit st c q a2 e hc hs
    | none =>
      rw [constructSingleton_miss st c q a1 hc hs] at h
      injection h with h1 h2
      injection h1 with h1
      subst h1
      subst h2
      exact constructSingleton_hit _ c q a2 _ hc
        (storeGet_storeSet_self st.singletons c (normQ q) ⟨st.nextId, Scope.SINGLETON, a1⟩)

/-- Witness for C1: in the state left by a first construction of
TestSingleton with argument list [1], a second construction with the
discarded argument list [2] returns the first instance and leaves the
state untouched. -/
theorem c1_singleton_identity_witness :
    constructSingleton
      ⟨[(clsTestSingleton, [("default", ⟨0, Scope.SINGLETON, [1]⟩)])],
       [], 1, [(clsTestSingleton, [1])]⟩
      clsTestSingleton none [2]
    = (Except.ok ⟨0, Scope.SINGLETON, [1]⟩,
       ⟨[(clsTestSingleton, [("default", ⟨0, Scope.SINGLETON, [1]⟩)])],
        [], 1, [(clsTestSingleton, [1])]⟩) :=
  (c1_singleton_identity stEmpty clsTestSingleton none [1] [2] rfl).2
    ⟨0, Scope.SINGLETON, [1]⟩ _ rfl

/-- Claim C4 counterexample: evicting a REQUEST-scoped entry with no
context store current does not raise — the call returns normally and
changes nothing (the code returns early when getStore() is undefined),
refuting the claim that such an eviction is fatal. -/
theorem c4_counterexample :
    removeComponentFromApplicationContext stEmpty clsDummyRequest none
      = (Except.ok (), stEmpty) := rfl

/-- Claim C4 as amended: registering a REQUEST-scoped entry with no
context store current raises the NoActiveContext error, while evicting a
REQUEST-scoped entry with no context store current is a silent no-op
that returns without error and leaves the state unchanged. -/
theorem c4_no_active_context (st : CtxState) (c : Cls) (inst : Instance) (q : Option String)
    (hstack : st.requestStack = []) (hc : c.scope = Scope.REQUEST)
    (hi : inst.scope = Scope.REQUEST) :
    setApplicationContext st inst c q
      = (Except.error "No active request scope. Make sure to call within withRequestScope().",
         st)
    ∧ removeComponentFromApplicationContext st c q = (Except.ok (), st) := by
  constructor
  · simp [setApplicationContext, hi, hstack]
  · simp [removeComponentFromApplicationContext, hc, hstack]

/-- Witness for the amended C4 at a concrete state with no active
context. -/
theorem c4_no_active_context_witness :
    setApplicationContext stEmpty ⟨5, Scope.REQUEST, []⟩ clsDummyRequest none
      = (Except.error "No active request scope. Make sure to call within withRequestScope().",
         stEmpty)
    ∧ removeComponentFromApplicationContext stEmpty clsDummyRequest none
      = (Except.ok (), stEmpty) :=
  c4_no_active_context stEmpty clsDummyRequest ⟨5, Scope.REQUEST, []⟩ none rfl rfl rfl

/-- Claim C9 (code bug): getApplicationContext on a PROTOTYPE-scoped
class falls into the default switch branch and throws
"Unsupported scope: PROTOTYPE" instead of returning absent, and the same
happens on eviction (Component.stop), although PROTOTYPE is inside the
known taxonomy; the prototype integration test and the README expect the
lookup to return undefined and stop() to be a no-op. -/
theorem c9_prototype_lookup_raises :
    getApplicationContext stEmpty clsDummyPrototype none
      = Except.error "Unsupported scope: PROTOTYPE"
    ∧ (removeComponentFromApplicationContext stEmpty clsDummyPrototype none).1
      = Except.error "Unsupported scope: PROTOTYPE" := ⟨rfl, rfl⟩

/-- Claim C10: for store, lookup and remove the empty-string qualifier
behaves identically to an omitted qualifier (both are falsy in
`qualifier || DEFAULT_QUALIFIER`, so both normalise to "default"), and
an instance stored under the empty string is found by a
default-qualifier lookup and vice versa. -/
theorem c10_empty_qualifier (st : CtxState) (c : Cls) (inst : Instance) :
    setApplicationContext st inst c (some "") = setApplicationContext st inst c none
    ∧ getApplicationContext st c (some "") = getApplicationContext st c none
    ∧ removeComponentFromApplicationContext st c (some "")
        = removeComponentFromApplicationContext st c none
    ∧ storeGet (storeSet st.singletons c (normQ (some "")) inst) c (normQ none) = some inst
    ∧ storeGet (storeSet st.singletons c (normQ none) inst) c (normQ (some "")) = some inst :=
  ⟨rfl, rfl, rfl,
   storeGet_storeSet_self st.singletons c DEFAULT_QUALIFIER inst,
   storeGet_storeSet_self st.singletons c DEFAULT_QUALIFIER inst⟩

theorem storeWF_single (c : Cls) (m : List (String × Instance)) (h : m ≠ []) :
    StoreWF [(c, m)] := by
  intro c2 m2 hm
  by_cases hc : c = c2
  · simp [aget, hc] at hm
    subst hm
    exact h
  · simp [aget, hc] at hm

/-- Claim C7: removing a registry entry returns normally and deletes the
(type, qualifier) mapping; when the removed qualifier was the last one
for the type the outer type key is deleted as well, so lookups for every
qualifier of the type return absent; removal of an absent entry leaves
the state exactly as it was; and no empty qualifier map ever persists
after a removal. -/
theorem c7_remove_prunes (st : CtxState) (c : Cls) (q : Option String)
    (hc : c.scope = Scope.SINGLETON) (hwf : StoreWF st.singletons) :
    (removeComponentFromApplicationContext st c q).1 = Except.ok ()
    ∧ storeGet (removeComponentFromApplicationContext st c q).2.singletons c (normQ q) = none
    ∧ ((∀ x, x ≠ normQ q → storeGet st.singletons c x = none) →
        aget (removeComponentFromApplicationContext st c q).2.singletons c = none
        ∧ ∀ x, storeGet (removeComponentFromApplicationContext st c q).2.singletons c x = none)
    ∧ (storeGet st.singletons c (normQ q) = none →
        removeComponentFromApplicationContext st c q = (Except.ok (), st))
    ∧ StoreWF (removeComponentFromApplicationContext st c q).2.singletons := by
  have hr := remove_singleton_eq st c q hc
  refine ⟨by rw [hr], ?_, ?_, ?_, ?_⟩
  · rw [hr]
    exact storeGet_storeRemove_self st.singletons c (normQ q)
  · intro h
    rw [hr]
    have h1 := storeRemove_last st.singletons c (normQ q) h
    exact ⟨h1, fun x => storeGet_of_aget_none _ c x h1⟩
  · intro h
    rw [hr, storeRemove_absent st.singletons c (normQ q) hwf h]
  · rw [hr]
    exact storeRemove_WF st.singletons c (normQ q) hwf

/-- Witness for C7: removing the only qualifier entry of TestSingleton
returns normally and deletes the type key itself. -/
theorem c7_remove_prunes_witness :
    (removeComponentFromApplicationContext
        ⟨[(clsTestSingleton, [("default", ⟨0, Scope.SINGLETON, []⟩)])], [], 1, []⟩
        clsTestSingleton none).1 = Except.ok ()
    ∧ aget (removeComponentFromApplicationContext
        ⟨[(clsTestSingleton, [("default", ⟨0, Scope.SINGLETON, []⟩)])], [], 1, []⟩
        clsTestSingleton none).2.singletons clsTestSingleton = none := by
  have hthm := c7_remove_prunes
    ⟨[(clsTestSingleton, [("default", ⟨0, Scope.SINGLETON, []⟩)])], [], 1, []⟩
    clsTestSingleton none rfl
    (storeWF_single clsTestSingleton [("default", ⟨0, Scope.SINGLETON, []⟩)] (by simp))
  refine ⟨hthm.1, (hthm.2.2.1 (fun x hx => ?_)).1⟩
  have hx2 : "default" ≠ x := fun hh => hx hh.symm
  simp [storeGet, aget, clsTestSingleton, hx2]

/-- Claim C8: replace on a component class evicts the old entry and
inserts the new instance under the same type and qualifier, returning
the new instance, and a subsequent lookup finds exactly the new
instance; when the operation fails the state is exactly what it was
before the call — never a partial state.  The hypothesis records that
the replacement instance is of the replaced class, hence carries the
class scope, which is the claim's own domain ("under the same type"). -/
theorem c8_replace_atomic (st : CtxState) (c : Cls) (ni : Instance) (q : Option String)
    (h : ni.scope = c.scope) :
    (∀ (i : Instance) (st2 : CtxState), replace st c ni q = (Except.ok i, st2) →
      i = ni ∧ getApplicationContext st2 c q = Except.ok (some ni))
    ∧ (∀ (e : String) (st2 : CtxState), replace st c ni q = (Except.error e, st2) →
      st2 = st) := by
  cases hsc : c.scope with
  | SINGLETON =>
    have hi : ni.scope = Scope.SINGLETON := by rw [h, hsc]
    have hrep : replace st c ni q
        = (Except.ok ni,
           { st with singletons :=
               storeSet (storeRemove st.singletons c (normQ q)) c (normQ q) ni }) := by
      simp only [replace, remove_singleton_eq st c q hsc,
        set_singleton_eq { st with singletons := storeRemove st.singletons c (normQ q) }
          ni c q hi]
    constructor
    · intro i st2 heq
      rw [hrep] at heq
      injection heq with h1 h2
      injection h1 with h1
      subst h1
      subst h2
      refine ⟨rfl, ?_⟩
      rw [get_singleton_eq _ c q hsc]
      exact congrArg Except.ok
        (storeGet_storeSet_self (storeRemove st.singletons c (normQ q)) c (normQ q) ni)
    · intro e st2 heq
      rw [hrep] at heq
      injection heq with h1 h2
      exact Except.noConfusion h1
  | REQUEST =>
    have hi : ni.scope = Scope.REQUEST := by rw [h, hsc]
    cases hstack : st.requestStack with
    | nil =>
      have hrem : removeComponentFromApplicationContext st c q = (Except.ok (), st) := by
        simp [removeComponentFromApplicationContext, hsc, hstack]
      have hset : setApplicationContext st ni c q
          = (Except.error "No active request scope. Make sure to call within withRequestScope().",
             st) := by
        simp [setApplicationContext, hi, hstack]
      have hrep : replace st c ni q
          = (Except.error "No active request scope. Make sure to call within withRequestScope().",
             st) := by
        simp only [replace, hrem, hset]
      constructor
      · intro i st2 heq
        rw [hrep] at heq
        injection heq with h1 h2
        exact Except.noConfusion h1
      · intro e st2 heq
        rw [hrep] at heq
        injection heq with h1 h2
        exact h2.symm
    | cons top rest =>
      have hrem : removeComponentFromApplicationContext st c q
          = (Except.ok (), { st with requestStack := storeRemove top c (normQ q) :: rest }) := by
        simp [removeComponentFromApplicationContext, hsc, hstack]
      have hrep : replace st c ni q
          = (Except.ok ni,
             { st with requestStack :=
                 storeSet (storeRemove top c (normQ q)) c (normQ q) ni :: rest }) := by
        simp only [replace, hrem,
          set_request_eq { st with requestStack := storeRemove top c (normQ q) :: rest }
            ni c q (storeRemove top c (normQ q)) rest hi rfl]
      constructor
      · intro i st2 heq
        rw [hrep] at heq
        injection heq with h1 h2
        injection h1 with h1
        subst h1
        subst h2
        refine ⟨rfl, ?_⟩
        rw [get_request_eq _ c q (storeSet (storeRemove top c (normQ q)) c (normQ q) ni)
          rest hsc rfl]
        exact congrArg Except.ok
          (storeGet_storeSet_self (storeRemove top c (normQ q)) c (normQ q) ni)
      · intro e st2 heq
        rw [hrep] at heq
        injection heq with h1 h2
        exact Except.noConfusion h1
  | PROTOTYPE =>
    have hrep : replace st c ni q
        = (Except.error ("Unsupported scope: " ++ Scope.toStr Scope.PROTOTYPE), st) := by
      have hrem : removeComponentFromApplicationContext st c q
          = (Except.error ("Unsupported scope: " ++ Scope.toStr Scope.PROTOTYPE), st) := by
        simp [removeComponentFromApplicationContext, hsc]
      simp only [replace, hrem]
    constructor
    · intro i st2 heq
      rw [hrep] at heq
      injection heq with h1 h2
      exact Except.noConfusion h1
    · intro e st2 heq
      rw [hrep] at heq
      injection heq with h1 h2
      exact h2.symm

/-- Witness for C8: replacing the registered TestSingleton instance by a
new one succeeds and a lookup afterwards finds exactly the new
instance. -/
theorem c8_replace_atomic_witness :
    getApplicationContext
      ⟨[(clsTestSingleton, [("default", ⟨9, Scope.SINGLETON, [3]⟩)])], [], 1, []⟩
      clsTestSingleton none
    = Except.ok (some ⟨9, Scope.SINGLETON, [3]⟩) :=
  ((c8_replace_atomic
      ⟨[(clsTestSingleton, [("default", ⟨0, Scope.SINGLETON, []⟩)])], [], 1, []⟩
      clsTestSingleton ⟨9, Scope.SINGLETON, [3]⟩ none rfl).1
    ⟨9, Scope.SINGLETON, [3]⟩ _ rfl).2

/-- Claim C2 (Insert modelled from the spec): the field dependency
resolver looks the dependency up under the declared qualifier, so the
bound instance is the one registered under (dependency type, declared
qualifier) and never a different instance registered under any other
qualifier such as the default one. -/
theorem c2_insert_uses_declared_qualifier (st : CtxState) (depType : Cls) (opt : Bool)
    (qs fieldName : String) (iQ : Instance)
    (hscope : depType.scope = Scope.SINGLETON)
    (hq : storeGet st.singletons depType (normQ (some qs)) = some iQ) :
    Insert st depType opt (some qs) fieldName = Except.ok (some iQ)
    ∧ ∀ iD : Instance, iD ≠ iQ →
        Insert st depType opt (some qs) fieldName ≠ Except.ok (some iD) := by
  have h1 : Insert st depType opt (some qs) fieldName = Except.ok (some iQ) := by
    rw [Insert, get_singleton_eq st depType (some qs) hscope, hq]
  refine ⟨h1, fun iD hne hEq => hne ?_⟩
  rw [h1] at hEq
  injection hEq with h2
  injection h2 with h2
  exact h2.symm

/-- Witness for C2: with one instance under "default" and a distinct one
under "secondary", the resolver declared with qualifier "secondary"
binds the latter and not the former. -/
theorem c2_insert_uses_declared_qualifier_witness :
    Insert ⟨[(clsQualified,
               [("default", ⟨0, Scope.SINGLETON, [0]⟩),
                ("secondary", ⟨1, Scope.SINGLETON, [7]⟩)])], [], 2, []⟩
        clsQualified false (some "secondary") "qualified"
      = Except.ok (some ⟨1, Scope.SINGLETON, [7]⟩)
    ∧ Insert ⟨[(clsQualified,
               [("default", ⟨0, Scope.SINGLETON, [0]⟩),
                ("secondary", ⟨1, Scope.SINGLETON, [7]⟩)])], [], 2, []⟩
        clsQualified false (some "secondary") "qualified"
      ≠ Except.ok (some ⟨0, Scope.SINGLETON, [0]⟩) :=
  ⟨(c2_insert_uses_declared_qualifier
      ⟨[(clsQualified,
          [("default", ⟨0, Scope.SINGLETON, [0]⟩),
           ("secondary", ⟨1, Scope.SINGLETON, [7]⟩)])], [], 2, []⟩
      clsQualified false "secondary" "qualified" ⟨1, Scope.SINGLETON, [7]⟩ rfl rfl).1,
   (c2_insert_uses_declared_qualifier
      ⟨[(clsQualified,
          [("default", ⟨0, Scope.SINGLETON, [0]⟩),
           ("secondary", ⟨1, Scope.SINGLETON, [7]⟩)])], [], 2, []⟩
      clsQualified false "secondary" "qualified" ⟨1, Scope.SINGLETON, [7]⟩ rfl rfl).2
     ⟨0, Scope.SINGLETON, [0]⟩ (by decide)⟩

/-- Claim C3 (Insert modelled from the spec): a required declared
dependency with no registry entry fails with an error naming the missing
dependency type and the consuming field; an optional one binds the
absent value; and when a registry entry exists the field is bound to
exactly the registered instance. -/
theorem c3_insert_required_vs_optional (st : CtxState) (depType : Cls) (q : Option String)
    (fieldName : String) (hscope : depType.scope = Scope.SINGLETON) :
    (storeGet st.singletons depType (normQ q) = none →
      Insert st depType false q fieldName
        = Except.error ("Failed to inject " ++ fieldName ++ ": No instance of "
            ++ depType.name
            ++ " found in application context. Make sure the dependency is decorated with @Singleton or @Request and has been instantiated."))
    ∧ (storeGet st.singletons depType (normQ q) = none →
        Insert st depType true q fieldName = Except.ok none)
    ∧ (∀ (opt : Bool) (i : Instance), storeGet st.singletons depType (normQ q) = some i →
        Insert st depType opt q fieldName = Except.ok (some i)) := by
  refine ⟨fun h => ?_, fun h => ?_, fun opt i h => ?_⟩
  · rw [Insert, get_singleton_eq st depType q hscope, h]
    rfl
  · rw [Insert, get_singleton_eq st depType q hscope, h]
    rfl
  · rw [Insert, get_singleton_eq st depType q hscope, h]

/-- Witness for C3: in the empty registry the required resolution throws
the descriptive error, the optional one binds the absent value, and
after registration the field equals the registered instance. -/
theorem c3_insert_required_vs_optional_witness :
    Insert stEmpty clsTestSingleton false none "testSingleton"
      = Except.error "Failed to inject testSingleton: No instance of TestSingleton found in application context. Make sure the dependency is decorated with @Singleton or @Request and has been instantiated."
    ∧ Insert stEmpty clsTestSingleton true none "optionalSingleton" = Except.ok none
    ∧ Insert ⟨[(clsTestSingleton, [("default", ⟨0, Scope.SINGLETON, [1]⟩)])], [], 1, []⟩
        clsTestSingleton false none "testSingleton"
      = Except.ok (some ⟨0, Scope.SINGLETON, [1]⟩) :=
  ⟨(c3_insert_required_vs_optional stEmpty clsTestSingleton none "testSingleton" rfl).1 rfl,
   (c3_insert_required_vs_optional stEmpty clsTestSingleton none "optionalSingleton" rfl).2.1 rfl,
   (c3_insert_required_vs_optional
      ⟨[(clsTestSingleton, [("default", ⟨0, Scope.SINGLETON, [1]⟩)])], [], 1, []⟩
      clsTestSingleton none "testSingleton" rfl).2.2 false ⟨0, Scope.SINGLETON, [1]⟩ rfl⟩

/-- Claim C5: two separate runInNewContext invocations each constructing
the same REQUEST-scoped type with the same qualifier produce distinct
instances — each invocation pushes a fresh empty context store, so both
constructions miss and build fresh objects with distinct identities. -/
theorem c5_request_isolation (st : CtxState) (c : Cls) (q : Option String)
    (a1 a2 : List Nat) (hc : c.scope = Scope.REQUEST) :
    (runInNewContext (constructRequestCb c q a1) st).1
        = Except.ok ⟨st.nextId, Scope.REQUEST, a1⟩
    ∧ (runInNewContext (constructRequestCb c q a2)
          (runInNewContext (constructRequestCb c q a1) st).2).1
        = Except.ok ⟨st.nextId + 1, Scope.REQUEST, a2⟩
    ∧ (⟨st.nextId, Scope.REQUEST, a1⟩ : Instance)
        ≠ ⟨st.nextId + 1, Scope.REQUEST, a2⟩ := by
  have h1 : runInNewContext (constructRequestCb c q a1) st
      = (Except.ok ⟨st.nextId, Scope.REQUEST, a1⟩,
         { st with nextId := st.nextId + 1,
                   payloadRuns := st.payloadRuns ++ [(c, a1)] }) := by
    simp only [runInNewContext, constructRequestCb,
      constructRequest_miss { st with requestStack := [] :: st.requestStack } c q a1
        [] st.requestStack hc rfl rfl, List.tail_cons]
  have h2 : runInNewContext (constructRequestCb c q a2)
        { st with nextId := st.nextId + 1, payloadRuns := st.payloadRuns ++ [(c, a1)] }
      = (Except.ok ⟨st.nextId + 1, Scope.REQUEST, a2⟩,
         { st with nextId := st.nextId + 1 + 1,
                   payloadRuns := (st.payloadRuns ++ [(c, a1)]) ++ [(c, a2)] }) := by
    simp only [runInNewContext, constructRequestCb,
      constructRequest_miss
        { st with nextId := st.nextId + 1, payloadRuns := st.payloadRuns ++ [(c, a1)],
                  requestStack := [] :: st.requestStack } c q a2
        [] st.requestStack hc rfl rfl, List.tail_cons]
  refine ⟨by rw [h1], ?_, ?_⟩
  · simp only [h1, h2]
  · intro hI
    injection hI with hid hsc hargs
    exact absurd hid (by omega)

/-- Witness for C5: two fresh request contexts over the empty state give
instances with identities 0 and 1. -/
theorem c5_request_isolation_witness :
    (runInNewContext (constructRequestCb clsDummyRequest none [1]) stEmpty).1
        = Except.ok ⟨0, Scope.REQUEST, [1]⟩
    ∧ (runInNewContext (constructRequestCb clsDummyRequest none [2])
          (runInNewContext (constructRequestCb clsDummyRequest none [1]) stEmpty).2).1
        = Except.ok ⟨1, Scope.REQUEST, [2]⟩
    ∧ (⟨0, Scope.REQUEST, [1]⟩ : Instance) ≠ ⟨1, Scope.REQUEST, [2]⟩ :=
  c5_request_isolation stEmpty clsDummyRequest none [1] [2] rfl

/-- Claim C6: within one runInNewContext invocation, constructing the
same REQUEST-scoped type and qualifier twice returns the same instance:
the first call constructs and registers, the second returns the
registered instance and leaves the state exactly as the first call left
it (same shared object, no payload re-run). -/
theorem c6_request_reuse (st : CtxState) (c : Cls) (q : Option String)
    (a1 a2 : List Nat) (hc : c.scope = Scope.REQUEST) :
    (runInNewContext (twiceInContext c q a1 a2) st).1.1.1
        = Except.ok ⟨st.nextId, Scope.REQUEST, a1⟩
    ∧ (runInNewContext (twiceInContext c q a1 a2) st).1.2.1
        = Except.ok ⟨st.nextId, Scope.REQUEST, a1⟩
    ∧ (runInNewContext (twiceInContext c q a1 a2) st).1.2.2
        = (runInNewContext (twiceInContext c q a1 a2) st).1.1.2 := by
  have htw : twiceInContext c q a1 a2 { st with requestStack := [] :: st.requestStack }
      = ((⟨Except.ok ⟨st.nextId, Scope.REQUEST, a1⟩,
           { st with nextId := st.nextId + 1,
                     payloadRuns := st.payloadRuns ++ [(c, a1)],
                     requestStack :=
                       storeSet [] c (normQ q) ⟨st.nextId, Scope.REQUEST, a1⟩
                         :: st.requestStack }⟩,
          ⟨Except.ok ⟨st.nextId, Scope.REQUEST, a1⟩,
           { st with nextId := st.nextId + 1,
                     payloadRuns := st.payloadRuns ++ [(c, a1)],
                     requestStack :=
                       storeSet [] c (normQ q) ⟨st.nextId, Scope.REQUEST, a1⟩
                         :: st.requestStack }⟩),
         { st with nextId := st.nextId + 1,
                   payloadRuns := st.payloadRuns ++ [(c, a1)],
                   requestStack :=
                     storeSet [] c (normQ q) ⟨st.nextId, Scope.REQUEST, a1⟩
                       :: st.requestStack }) := by
    simp only [twiceInContext,
      constructRequest_miss { st with requestStack := [] :: st.requestStack } c q a1
        [] st.requestStack hc rfl rfl,
      constructRequest_hit
        { st with nextId := st.nextId + 1,
                  payloadRuns := st.payloadRuns ++ [(c, a1)],
                  requestStack :=
                    storeSet [] c (normQ q) ⟨st.nextId, Scope.REQUEST, a1⟩
                      :: st.requestStack } c q a2
        ⟨st.nextId, Scope.REQUEST, a1⟩
        (storeSet [] c (normQ q) ⟨st.nextId, Scope.REQUEST, a1⟩) st.requestStack hc rfl
        (storeGet_storeSet_self [] c (normQ q) ⟨st.nextId, Scope.REQUEST, a1⟩)]
  have hrun : runInNewContext (twiceInContext c q a1 a2) st
      = ((⟨Except.ok ⟨st.nextId, Scope.REQUEST, a1⟩,
           { st with nextId := st.nextId + 1,
                     payloadRuns := st.payloadRuns ++ [(c, a1)],
                     requestStack :=
                       storeSet [] c (normQ q) ⟨st.nextId, Scope.REQUEST, a1⟩
                         :: st.requestStack }⟩,
          ⟨Except.ok ⟨st.nextId, Scope.REQUEST, a1⟩,
           { st with nextId := st.nextId + 1,
                     payloadRuns := st.payloadRuns ++ [(c, a1)],
                     requestStack :=
                       storeSet [] c (normQ q) ⟨st.nextId, Scope.REQUEST, a1⟩
                         :: st.requestStack }⟩),
         { st with nextId := st.nextId + 1,
                   payloadRuns := st.payloadRuns ++ [(c, a1)] }) := by
    simp only [runInNewContext, htw, List.tail_cons]
  exact ⟨by rw [hrun], by rw [hrun], by rw [hrun]⟩

/-- Witness for C6: in a fresh request context over the empty state, the
second construction returns the instance the first one registered and
does not move the state. -/
theorem c6_request_reuse_witness :
    (runInNewContext (twiceInContext clsDummyRequest none [1] [2]) stEmpty).1.1.1
        = Except.ok ⟨0, Scope.REQUEST, [1]⟩
    ∧ (runInNewContext (twiceInContext clsDummyRequest none [1] [2]) stEmpty).1.2.1
        = Except.ok ⟨0, Scope.REQUEST, [1]⟩
    ∧ (runInNewContext (twiceInContext clsDummyRequest none [1] [2]) stEmpty).1.2.2
        = (runInNewContext (twiceInContext clsDummyRequest none [1] [2]) stEmpty).1.1.2 :=
  c6_request_reuse stEmpty clsDummyRequest none [1] [2] rfl

end MemoizedSingleton
